import Mathlib

/-!
# knockrd: TTL backend, handshake handlers and cache-TTL reconciliation

A shallow embedding of `backend.go`, `http.go` and the TTL part of `config.go`.

* Go `error` values are modelled by their message: `none` is `nil`.
* The DynamoDB table is the external store; it is modelled as a map from the hash
  key `Key` to the `Expires` attribute, with a per-call fault that stands for an
  I/O failure or an exceeded deadline of that call.
* `int64` arithmetic is `Int` arithmetic wrapped into the 64-bit range.
-/

namespace Knockrd

/-! ## Go primitives -/

/-- A Go `error`: `none` is `nil`, `some msg` is an error whose `Error()` is `msg`. -/
abbrev GoError := Option String

/-- Two's complement wrap of an integer into the `int64` range. -/
def wrapInt64 (x : Int) : Int :=
  (x + 2 ^ 63) % 2 ^ 64 - 2 ^ 63

/-- Whether `sub` occurs in `s` as a contiguous run of characters. -/
def containsChars : List Char → List Char → Bool
  | [], sub => sub.isEmpty
  | c :: cs, sub => sub.isPrefixOf (c :: cs) || containsChars cs sub

/-- Go `strings.Contains`. -/
def stringsContains (s substr : String) : Bool :=
  containsChars s.data substr.data

/-! ## The durable store (DynamoDB table, external) -/

/-- `Item` of `backend.go`. -/
structure Item where
  Key : String
  Expires : Int
  deriving DecidableEq, Repr

/-- A table with hash key `Key`: each key holds at most one item, given by its `Expires`. -/
abbrev Table := String → Option Int

/-- The table without any item. -/
def Table.empty : Table := fun _ => none

/-- The item stored under `key`, if any. -/
def Table.item (t : Table) (key : String) : Option Item :=
  (t key).map (fun e => Item.mk key e)

/-- Message of the error the store client returns when a lookup finds nothing. -/
def errNotFound : String := "dynamo: no item found"

/-- Lookup `table.Get("Key", key).One`: the item, the not-found error, or the call fault. -/
def Table.getOne (t : Table) (key : String) (fault : GoError) : Except String Item :=
  match fault with
  | some e => Except.error e
  | none =>
    match t.item key with
    | some it => Except.ok it
    | none => Except.error errNotFound

/-- Write `table.Put(item)`: replaces the item under the same key; a faulted call writes nothing. -/
def Table.put (t : Table) (item : Item) (fault : GoError) : GoError × Table :=
  match fault with
  | some e => (some e, t)
  | none => (none, fun k => if k = item.Key then some item.Expires else t k)

/-- Removal `table.Delete("Key", key)`: removing an absent key is no error. -/
def Table.delete (t : Table) (key : String) (fault : GoError) : GoError × Table :=
  match fault with
  | some e => (some e, t)
  | none => (none, fun k => if k = key then none else t k)

/-! ## `backend.go` -/

/-- `DynamoDBBackend` of `backend.go` (the client handle `db` is the table argument). -/
structure DynamoDBBackend where
  TableName : String
  Expires : Int

/-- Body of `DynamoDBBackend.Get` after the lookup returned `r`, at clock reading `ts`. -/
def DynamoDBBackend.getResult (r : Except String Item) (ts : Int) : Bool × GoError :=
  match r with
  | Except.error e =>
    if stringsContains e "no item found" then (false, none) else (false, some e)
  | Except.ok item => (decide (ts ≤ item.Expires), none)

/-- `DynamoDBBackend.Get`: `now` is `time.Now().Unix()`, `fault` the outcome of the store call. -/
def DynamoDBBackend.Get (_d : DynamoDBBackend) (key : String) (now : Int) (fault : GoError)
    (t : Table) : Bool × GoError :=
  DynamoDBBackend.getResult (t.getOne key fault) now

/-- `DynamoDBBackend.Set`: writes `Item(key, now + d.Expires)` in `int64` arithmetic. -/
def DynamoDBBackend.Set (d : DynamoDBBackend) (key : String) (now : Int) (fault : GoError)
    (t : Table) : GoError × Table :=
  let expires := wrapInt64 (now + d.Expires)
  t.put (Item.mk key expires) fault

/-- `DynamoDBBackend.Delete`. -/
def DynamoDBBackend.Delete (_d : DynamoDBBackend) (key : String) (fault : GoError)
    (t : Table) : GoError × Table :=
  t.delete key fault

/-! ## `http.go` -/

/-- The `Backend` interface as the handlers use it, over a backend state `σ`;
`TTL` is the rendering of `backend.TTL()` used in the confirmation text. -/
structure Backend (σ : Type) where
  Set : String → σ → GoError × σ
  Get : String → σ → (Bool × GoError) × σ
  Delete : String → σ → GoError × σ
  TTL : String

/-- One operation issued on the `Backend`. -/
inductive Call where
  | get (key : String)
  | set (key : String)
  | delete (key : String)
  deriving DecidableEq, Repr

/-- The same backend, recording every operation issued on it in order. -/
def Backend.traced {σ : Type} (b : Backend σ) : Backend (σ × List Call) where
  Set := fun k s => ((b.Set k s.1).1, ((b.Set k s.1).2, s.2 ++ [Call.set k]))
  Get := fun k s => ((b.Get k s.1).1, ((b.Get k s.1).2, s.2 ++ [Call.get k]))
  Delete := fun k s => ((b.Delete k s.1).1, ((b.Delete k s.1).2, s.2 ++ [Call.delete k]))
  TTL := b.TTL

/-- `http.ResponseWriter`: the header map, the status once written, and the body. -/
structure ResponseWriter where
  header : List (String × String)
  status : Option Nat
  body : String
  deriving DecidableEq, Repr

/-- A fresh response: nothing written yet. -/
def ResponseWriter.new : ResponseWriter := ⟨[], none, ""⟩

/-- `w.WriteHeader(code)`: only the first status written counts. -/
def ResponseWriter.WriteHeader (w : ResponseWriter) (code : Nat) : ResponseWriter :=
  match w.status with
  | some _ => w
  | none => { w with status := some code }

/-- `w.Write`, as `fmt.Fprint*` calls it: a first write without status sends 200. -/
def ResponseWriter.Write (w : ResponseWriter) (s : String) : ResponseWriter :=
  let w1 := w.WriteHeader 200
  { w1 with body := w1.body ++ s }

/-- `w.Header().Set(k, v)`. -/
def ResponseWriter.headerSet (w : ResponseWriter) (k v : String) : ResponseWriter :=
  { w with header := (w.header.filter (fun p => p.1 != k)) ++ [(k, v)] }

/-- `w.Header().Add(k, v)`. -/
def ResponseWriter.headerAdd (w : ResponseWriter) (k v : String) : ResponseWriter :=
  { w with header := w.header ++ [(k, v)] }

/-- The status the client receives: 200 when the handler never wrote one. -/
def ResponseWriter.sentStatus (w : ResponseWriter) : Nat :=
  w.status.getD 200

/-- First value under `key` in a header or form map, `""` when there is none. -/
def firstValue (m : List (String × String)) (key : String) : String :=
  match m.find? (fun p => p.1 == key) with
  | some p => p.2
  | none => ""

/-- `http.Request`: method, headers and parsed form values. -/
structure Request where
  Method : String
  Header : List (String × String)
  Form : List (String × String)

/-- `r.Header.Get(key)`. -/
def Request.headerGet (r : Request) (key : String) : String := firstValue r.Header key

/-- `r.FormValue(key)`. -/
def Request.FormValue (r : Request) (key : String) : String := firstValue r.Form key

/-- What the handlers take from outside `http.go`: the key tag `noCachePrefix`, the
outcome of `crypto/rand.Read` on 32 bytes, and the escaper of `html/template`. -/
structure Env where
  noCachePrefix : String
  rand : Except String (List Nat)
  htmlEscape : String → String

/-- A lowercase hexadecimal digit. -/
def hexDigit (n : Nat) : Char :=
  if n < 10 then Char.ofNat (48 + n) else Char.ofNat (87 + n)

/-- `fmt.Sprintf("%x", k)` on a byte slice: two digits per byte. -/
def hexEncode (k : List Nat) : String :=
  String.mk (k.flatMap (fun b => [hexDigit (b % 256 / 16), hexDigit (b % 16)]))

/-- `csrfToken`. -/
def csrfToken (env : Env) : Except String String :=
  match env.rand with
  | Except.error e => Except.error e
  | Except.ok k => Except.ok (env.noCachePrefix ++ hexEncode k)

/-- The executed `form` template. -/
def tmplForm (env : Env) (ipaddr token : String) : String :=
  "<!DOCTYPE html>\n<html>\n  <head>\n    <meta charset=\"utf-8\">\n\t<title>knockrd</title>\n  </head>\n  <body>\n\t<h1>knockrd</h1>\n\t<p>"
    ++ env.htmlEscape ipaddr
    ++ "</p>\n\t<form method=\"POST\">\n\t  <input type=\"hidden\" name=\"csrf_token\" value=\""
    ++ env.htmlEscape token
    ++ "\">\n\t  <input type=\"submit\" value=\"Allow\" name=\"allow\">\n\t  <input type=\"submit\" value=\"Disallow\" name=\"disallow\">\n\t</form>\n  </body>\n</html>\n"

/-- Result of a handler: the returned error, the response and the backend state. -/
structure Outcome (σ : Type) where
  err : GoError
  w : ResponseWriter
  st : σ

/-- A `handler` of `http.go`, with the global `backend` state threaded through. -/
abbrev Handler (σ : Type) := ResponseWriter → Request → σ → Outcome σ

/-- `allowGetHandler` (the issue endpoint). -/
def allowGetHandler {σ : Type} (env : Env) (backend : Backend σ) : Handler σ :=
  fun w r s =>
    let ipaddr := r.headerGet "X-Real-IP"
    if ipaddr = "" then
      ⟨none, (w.WriteHeader 400).Write "Bad request\n", s⟩
    else
      match csrfToken env with
      | Except.error e => ⟨some e, w, s⟩
      | Except.ok token =>
        match backend.Set token s with
        | (some e, s1) => ⟨some e, w, s1⟩
        | (none, s1) =>
          let w1 := w.headerSet "Content-Type" "text/html; charset=utf-8"
          ⟨none, w1.Write (tmplForm env ipaddr token), s1⟩

/-- `allowPostHandler` (the confirm endpoint). -/
def allowPostHandler {σ : Type} (backend : Backend σ) : Handler σ :=
  fun w r s =>
    let ipaddr := r.headerGet "X-Real-IP"
    let token := r.FormValue "csrf_token"
    if ipaddr = "" ∨ token = "" then
      ⟨none, (w.WriteHeader 400).Write "Bad request\n", s⟩
    else
      match backend.Get token s with
      | ((_, some e), s1) => ⟨some e, w, s1⟩
      | ((false, none), s1) => ⟨none, (w.WriteHeader 400).Write "Bad request\n", s1⟩
      | ((true, none), s1) =>
        match backend.Delete token s1 with
        | (some e, s2) => ⟨some e, w, s2⟩
        | (none, s2) =>
          if r.FormValue "allow" ≠ "" then
            match backend.Set ipaddr s2 with
            | (some e, s3) => ⟨some e, w, s3⟩
            | (none, s3) =>
              ⟨none, w.Write ("Allowed from " ++ ipaddr ++ " for " ++ backend.TTL ++ ".\n"), s3⟩
          else if r.FormValue "disallow" ≠ "" then
            match backend.Delete ipaddr s2 with
            | (some e, s3) => ⟨some e, w, s3⟩
            | (none, s3) => ⟨none, w.Write ("Disallowed from " ++ ipaddr ++ "\n"), s3⟩
          else
            ⟨none, w, s2⟩

/-- `allowHandler`: dispatch on the method; the result of the sub-handler is not used. -/
def allowHandler {σ : Type} (env : Env) (backend : Backend σ) : Handler σ :=
  fun w r s =>
    if r.Method = "GET" then
      let o := allowGetHandler env backend w r s
      ⟨none, o.w, o.st⟩
    else if r.Method = "POST" then
      let o := allowPostHandler backend w r s
      ⟨none, o.w, o.st⟩
    else
      ⟨none, w.WriteHeader 405, s⟩

/-- `authHandler` (the check endpoint). -/
def authHandler {σ : Type} (backend : Backend σ) : Handler σ :=
  fun w r s =>
    let ipaddr := r.headerGet "X-Real-IP"
    match backend.Get ipaddr s with
    | ((_, some e), s1) => ⟨some e, w, s1⟩
    | ((false, none), s1) => ⟨none, (w.WriteHeader 403).Write "Forbidden\n", s1⟩
    | ((true, none), s1) => ⟨none, w.Write "OK\n", s1⟩

/-- `rootHandler`. -/
def rootHandler {σ : Type} : Handler σ :=
  fun w r s =>
    let w1 := w.headerSet "Content-Type" "text/plain"
    ⟨none, w1.Write ("knockrd alive from " ++ r.headerGet "X-Real-IP" ++ "\n"), s⟩

/-- `wrap`: sets the two headers, runs `h`, and answers 500 when `h` returns an error. -/
def wrap {σ : Type} (h : Handler σ) (w : ResponseWriter) (r : Request) (s : σ) :
    ResponseWriter × σ :=
  let w1 := (w.headerAdd "X-Frame-Options" "DENY").headerSet "Cache-Control" "private"
  let o := h w1 r s
  match o.err with
  | some _ => (((o.w).WriteHeader 500).Write "Server Error\n", o.st)
  | none => (o.w, o.st)

/-- The calls that follow a successful `Delete(token)`, by the intent of the request. -/
def intentCalls (r : Request) : List Call :=
  if r.FormValue "allow" ≠ "" then [Call.set (r.headerGet "X-Real-IP")]
  else if r.FormValue "disallow" ≠ "" then [Call.delete (r.headerGet "X-Real-IP")]
  else []

/-! ## The handlers on the DynamoDB backend -/

/-- The world a request runs in: the table, the clock reading, and the outcome of each
store call to come (`faults i` for the call after `i` others; `none` reaches the store). -/
structure World where
  table : Table
  now : Int
  faults : Nat → GoError

/-- Outcome of the next store call. -/
def World.nextFault (x : World) : GoError := x.faults 0

/-- The outcomes left once the next store call is made. -/
def World.laterFaults (x : World) : Nat → GoError := fun i => x.faults (i + 1)

/-- A world in which every store call reaches the store. -/
def World.healthy (t : Table) (now : Int) : World := ⟨t, now, fun _ => none⟩

/-- `DynamoDBBackend` as the global `backend`, running in a `World`. -/
def DynamoDBBackend.toBackend (d : DynamoDBBackend) (ttl : String) : Backend World where
  Set := fun k x =>
    ((d.Set k x.now x.nextFault x.table).1,
      { x with table := (d.Set k x.now x.nextFault x.table).2, faults := x.laterFaults })
  Get := fun k x =>
    (d.Get k x.now x.nextFault x.table, { x with faults := x.laterFaults })
  Delete := fun k x =>
    ((d.Delete k x.nextFault x.table).1,
      { x with table := (d.Delete k x.nextFault x.table).2, faults := x.laterFaults })
  TTL := ttl

/-! ## Sample inputs -/

/-- A backend with a TTL of one hour. -/
def sampleBackend : Backend World := DynamoDBBackend.toBackend ⟨"knockrd", 3600⟩ "1h0m0s"

/-- An environment whose random source succeeds. -/
def sampleEnv : Env := ⟨"nocache:", Except.ok (List.replicate 32 0), id⟩

/-- A table holding the single key `tok`, live until 100. -/
def tokenTable : Table := fun k => if k = "tok" then some 100 else none

/-- A table holding the single key `10.0.0.1`, live until 100. -/
def addressTable : Table := fun k => if k = "10.0.0.1" then some 100 else none

/-- A confirm request: `POST` with the address, the token and the intent fields. -/
def confirmRequest (ip token : String) (intent : List (String × String)) : Request :=
  ⟨"POST", [("X-Real-IP", ip)], ("csrf_token", token) :: intent⟩

/-- An issue request: `GET` with the address. -/
def issueRequest (ip : String) : Request := ⟨"GET", [("X-Real-IP", ip)], []⟩

/-! ## `config.go`: the cache TTL in `Config.Setup` -/

/-- The two durations of `Config` that `Setup` reconciles, in nanoseconds. -/
structure Config where
  TTL : Int
  CacheTTL : Int
  deriving DecidableEq, Repr

/-- What `Setup` leaves behind: the configuration, the cache TTL handed to
`NewCachedBackend` (when it is called), and the returned error. -/
structure SetupResult where
  conf : Config
  cachedBackendTTL : Option Int
  err : GoError
  deriving DecidableEq, Repr

/-- `Config.Setup`, with the outcomes of the steps outside this file as arguments:
`cidrErr` of parsing `RealIPFrom`, `backendErr` of `NewDynamoDBBackend` and `cachedErr`
of `NewCachedBackend`. -/
def Config.Setup (c : Config) (cidrErr backendErr cachedErr : GoError) : SetupResult :=
  match cidrErr with
  | some e => ⟨c, none, some e⟩
  | none =>
    match backendErr with
    | some e => ⟨c, none, some e⟩
    | none =>
      if c.CacheTTL > 0 then
        -- the warning is logged when `c.CacheTTL > c.TTL`; the assignment follows it
        let c1 : Config := { c with CacheTTL := c.TTL }
        match cachedErr with
        | some e => ⟨c1, some c1.CacheTTL, some e⟩
        | none => ⟨c1, some c1.CacheTTL, none⟩
      else
        ⟨c, none, none⟩

end Knockrd

namespace Knockrd

/-! ## Store lemmas -/

theorem Table.item_eq_some (t : Table) (k : String) (it : Item) :
    t.item k = some it ↔ it.Key = k ∧ t k = some it.Expires := by
  cases it with
  | mk key e =>
    unfold Table.item
    cases h : t k with
    | none => simp
    | some e1 =>
      simp only [Option.map_some', Option.some.injEq, Item.mk.injEq]
      constructor
      · rintro ⟨h1, h2⟩; exact ⟨h1.symm, h2⟩
      · rintro ⟨h1, h2⟩; exact ⟨h1.symm, h2⟩

theorem wrapInt64_of_range (x : Int) (h1 : -2 ^ 63 ≤ x) (h2 : x < 2 ^ 63) :
    wrapInt64 x = x := by
  unfold wrapInt64
  rw [Int.emod_eq_of_lt (by omega) (by omega)]
  omega

theorem get_of_entry (d : DynamoDBBackend) (k : String) (now e : Int) (t : Table)
    (h : t k = some e) :
    d.Get k now none t = (decide (now ≤ e), none) := by
  simp [DynamoDBBackend.Get, Table.getOne, Table.item, h, DynamoDBBackend.getResult]

theorem get_of_missing (d : DynamoDBBackend) (k : String) (now : Int) (t : Table)
    (h : t k = none) :
    d.Get k now none t = (false, none) := by
  have hc : stringsContains errNotFound "no item found" = true := by decide
  simp [DynamoDBBackend.Get, Table.getOne, Table.item, h, DynamoDBBackend.getResult, hc]

theorem get_of_fault (d : DynamoDBBackend) (k : String) (now : Int) (e : String) (t : Table) :
    d.Get k now (some e) t
      = if stringsContains e "no item found" then (false, none) else (false, some e) := by
  simp [DynamoDBBackend.Get, Table.getOne, DynamoDBBackend.getResult]

/-! ## Claims on `backend.go` -/

/-- C1: for every key `k`, table and clock reading `now`, `DynamoDBBackend.Get(k)` on a
store that answers the lookup returns `(true, nil)` if and only if the store holds an
item with key `k` and `now ≤ Item.Expires`; when the item exists but `now > Item.Expires`
it returns `(false, nil)`; and a lookup that fails never yields `(true, nil)`. -/
theorem get_present_iff_live (d : DynamoDBBackend) (k : String) (now : Int) (t : Table) :
    (d.Get k now none t = (true, none)
        ↔ ∃ it : Item, t.item k = some it ∧ it.Key = k ∧ now ≤ it.Expires)
      ∧ (∀ it : Item, t.item k = some it → it.Expires < now →
          d.Get k now none t = (false, none))
      ∧ (∀ e : String, d.Get k now (some e) t ≠ (true, none)) := by
  refine ⟨?_, ?_, ?_⟩
  · cases h : t k with
    | none =>
      rw [get_of_missing d k now t h]
      simp [Table.item, h]
    | some e =>
      rw [get_of_entry d k now e t h]
      simp [Table.item, h]
  · intro it hit hlt
    rw [Table.item_eq_some] at hit
    rw [get_of_entry d k now it.Expires t hit.2]
    simp only [Prod.mk.injEq, decide_eq_false_iff_not, and_true]
    omega
  · intro e
    rw [get_of_fault]
    by_cases hc : stringsContains e "no item found" = true <;> simp [hc]

/-- Witness of C1 on a table holding `1.2.3.4` until 3600, read at 3599 and at 3601. -/
theorem get_present_iff_live_witness :
    DynamoDBBackend.Get ⟨"knockrd", 3600⟩ "1.2.3.4" 3599 none
        (fun k => if k = "1.2.3.4" then some 3600 else none) = (true, none)
      ∧ DynamoDBBackend.Get ⟨"knockrd", 3600⟩ "1.2.3.4" 3601 none
        (fun k => if k = "1.2.3.4" then some 3600 else none) = (false, none) :=
  ⟨((get_present_iff_live ⟨"knockrd", 3600⟩ "1.2.3.4" 3599
        (fun k => if k = "1.2.3.4" then some 3600 else none)).1).2
      ⟨⟨"1.2.3.4", 3600⟩, by decide, rfl, by decide⟩,
    (get_present_iff_live ⟨"knockrd", 3600⟩ "1.2.3.4" 3601
        (fun k => if k = "1.2.3.4" then some 3600 else none)).2.1
      ⟨"1.2.3.4", 3600⟩ (by decide) (by decide)⟩

end Knockrd

namespace Knockrd

theorem set_entry (d : DynamoDBBackend) (k : String) (t0 : Int) (t : Table) :
    (d.Set k t0 none t).1 = none
      ∧ (d.Set k t0 none t).2 k = some (wrapInt64 (t0 + d.Expires)) := by
  simp [DynamoDBBackend.Set, Table.put]

theorem set_err_none (d : DynamoDBBackend) (k : String) (t0 : Int) (fault : GoError)
    (t : Table) (h : (d.Set k t0 fault t).1 = none) : fault = none := by
  cases fault with
  | none => rfl
  | some e => simp [DynamoDBBackend.Set, Table.put] at h

/-- Why the expiry statement below asks for `t0 + TTL` inside the `int64` range: with
the largest `int64` as TTL, the sum computed by `Set` at time 1 wraps to the smallest
`int64`, and the item reads absent at once. -/
theorem set_wraps_past_int64 :
    DynamoDBBackend.Get ⟨"knockrd", 9223372036854775807⟩ "1.2.3.4" 1 none
        (DynamoDBBackend.Set ⟨"knockrd", 9223372036854775807⟩ "1.2.3.4" 1 none Table.empty).2
      = (false, none) := by
  decide

/-- C2 as stated fails at the probe time `t0 + TTL` itself: with TTL 3600 and a `Set` at
time 0, the `Get` at time 3600 (which is `≥ t0 + TTL`) still reads present. -/
theorem set_get_boundary_counterexample :
    (3600 : Int) ≥ 0 + (DynamoDBBackend.mk "knockrd" 3600).Expires
      ∧ (DynamoDBBackend.Set ⟨"knockrd", 3600⟩ "1.2.3.4" 0 none Table.empty).1 = none
      ∧ DynamoDBBackend.Get ⟨"knockrd", 3600⟩ "1.2.3.4" 3600 none
          (DynamoDBBackend.Set ⟨"knockrd", 3600⟩ "1.2.3.4" 0 none Table.empty).2
          = (true, none) := by
  decide

/-- C2 (amended): if `Set(k)` succeeds at time `t0`, `t0 + TTL` fits `int64`, and the
item under `k` is untouched since (table `t1` agrees with the written table at `k`), then
a `Get(k)` that reaches the store is present at every probe time `t ≤ t0 + TTL`, in
particular on `[t0, t0 + TTL]`, and absent at every probe time `t > t0 + TTL`. -/
theorem set_then_get_expiry (d : DynamoDBBackend) (k : String) (t0 t : Int) (fault : GoError)
    (table t1 : Table)
    (hlo : -2 ^ 63 ≤ t0 + d.Expires) (hhi : t0 + d.Expires < 2 ^ 63)
    (hset : (d.Set k t0 fault table).1 = none)
    (hsame : t1 k = (d.Set k t0 fault table).2 k) :
    (t ≤ t0 + d.Expires → d.Get k t none t1 = (true, none))
      ∧ (t0 + d.Expires < t → d.Get k t none t1 = (false, none)) := by
  have hf : fault = none := set_err_none d k t0 fault table hset
  subst hf
  have he : t1 k = some (t0 + d.Expires) := by
    rw [hsame, (set_entry d k t0 table).2, wrapInt64_of_range _ hlo hhi]
  rw [get_of_entry d k t (t0 + d.Expires) t1 he]
  constructor
  · intro h; simp [h]
  · intro h
    simp only [Prod.mk.injEq, decide_eq_false_iff_not, and_true]
    omega

/-- Witness of C2 (amended): TTL 3600, `Set` at 0; present at 3599, absent at 3601. -/
theorem set_then_get_expiry_witness :
    DynamoDBBackend.Get ⟨"knockrd", 3600⟩ "1.2.3.4" 3599 none
        (DynamoDBBackend.Set ⟨"knockrd", 3600⟩ "1.2.3.4" 0 none Table.empty).2 = (true, none)
      ∧ DynamoDBBackend.Get ⟨"knockrd", 3600⟩ "1.2.3.4" 3601 none
        (DynamoDBBackend.Set ⟨"knockrd", 3600⟩ "1.2.3.4" 0 none Table.empty).2
          = (false, none) :=
  ⟨(set_then_get_expiry ⟨"knockrd", 3600⟩ "1.2.3.4" 0 3599 none Table.empty _
      (by decide) (by decide) rfl rfl).1 (by decide),
    (set_then_get_expiry ⟨"knockrd", 3600⟩ "1.2.3.4" 0 3601 none Table.empty _
      (by decide) (by decide) rfl rfl).2 (by decide)⟩

/-- C3: when the store lookup of `DynamoDBBackend.Get` fails with an error whose message
contains "no item found", `Get` returns `(false, nil)`; when it fails with any other
error `e`, `Get` returns `(false, e)`; the store's own not-found result for a key without
item is of the first kind. -/
theorem get_error_mapping (d : DynamoDBBackend) (k : String) (now : Int) (e : String)
    (t : Table) :
    (stringsContains e "no item found" = true → d.Get k now (some e) t = (false, none))
      ∧ (stringsContains e "no item found" = false →
          d.Get k now (some e) t = (false, some e))
      ∧ (t k = none → t.getOne k none = Except.error errNotFound
          ∧ d.Get k now none t = (false, none)) := by
  refine ⟨?_, ?_, ?_⟩
  · intro h; rw [get_of_fault, h]; rfl
  · intro h; rw [get_of_fault, h]; rfl
  · intro h
    exact ⟨by simp [Table.getOne, Table.item, h], get_of_missing d k now t h⟩

/-- Witness of C3: a deadline error is returned as it is, a not-found error is dropped. -/
theorem get_error_mapping_witness :
    DynamoDBBackend.Get ⟨"knockrd", 3600⟩ "1.2.3.4" 0 (some "context deadline exceeded")
        Table.empty = (false, some "context deadline exceeded")
      ∧ DynamoDBBackend.Get ⟨"knockrd", 3600⟩ "1.2.3.4" 0 (some "dynamo: no item found")
        Table.empty = (false, none)
      ∧ DynamoDBBackend.Get ⟨"knockrd", 3600⟩ "1.2.3.4" 0 none Table.empty = (false, none) :=
  ⟨(get_error_mapping ⟨"knockrd", 3600⟩ "1.2.3.4" 0 "context deadline exceeded"
      Table.empty).2.1 (by decide),
    (get_error_mapping ⟨"knockrd", 3600⟩ "1.2.3.4" 0 "dynamo: no item found"
      Table.empty).1 (by decide),
    ((get_error_mapping ⟨"knockrd", 3600⟩ "1.2.3.4" 0 "x" Table.empty).2.2 rfl).2⟩

end Knockrd

namespace Knockrd

/-! ## Handler lemmas -/

theorem writeHeader_status (w : ResponseWriter) (code : Nat) (h : w.status = none) :
    (w.WriteHeader code).status = some code := by
  simp [ResponseWriter.WriteHeader, h]

theorem write_status (w : ResponseWriter) (s : String) (code : Nat)
    (h : w.status = some code) : (w.Write s).status = some code := by
  simp [ResponseWriter.Write, ResponseWriter.WriteHeader, h]

theorem write_fresh_status (w : ResponseWriter) (s : String) (h : w.status = none) :
    (w.Write s).status = some 200 := by
  simp [ResponseWriter.Write, ResponseWriter.WriteHeader, h]

theorem badRequest_status (w : ResponseWriter) (h : w.status = none) :
    ((w.WriteHeader 400).Write "Bad request\n").status = some 400 :=
  write_status _ _ 400 (writeHeader_status w 400 h)

/-! ## Claims on `http.go` -/

/-- C8: an issue request (`allowGetHandler`) with an empty source address, and a confirm
request (`allowPostHandler`) with an empty source address or an empty token, is answered
400 "Bad request", the handler returns no error, and no `Backend` operation is invoked:
the backend state and the record of calls are as before. -/
theorem bad_request_without_backend_call {σ : Type} (env : Env) (b : Backend σ)
    (w : ResponseWriter) (r : Request) (s : σ) (calls : List Call) :
    (r.headerGet "X-Real-IP" = "" →
        allowGetHandler env b.traced w r (s, calls)
          = ⟨none, (w.WriteHeader 400).Write "Bad request\n", (s, calls)⟩)
      ∧ (r.headerGet "X-Real-IP" = "" ∨ r.FormValue "csrf_token" = "" →
        allowPostHandler b.traced w r (s, calls)
          = ⟨none, (w.WriteHeader 400).Write "Bad request\n", (s, calls)⟩)
      ∧ (w.status = none →
        ((w.WriteHeader 400).Write "Bad request\n").status = some 400
          ∧ ((w.WriteHeader 400).Write "Bad request\n").body = w.body ++ "Bad request\n") := by
  refine ⟨?_, ?_, ?_⟩
  · intro h
    simp [allowGetHandler, h]
  · intro h
    simp only [allowPostHandler]
    rw [if_pos h]
  · intro h
    exact ⟨badRequest_status w h, by simp [ResponseWriter.Write, ResponseWriter.WriteHeader, h]⟩

/-- Witness of C8: confirm with an address, the token `""` and intent allow. -/
theorem bad_request_without_backend_call_witness :
    allowPostHandler (DynamoDBBackend.toBackend ⟨"knockrd", 3600⟩ "1h0m0s").traced
        ResponseWriter.new
        ⟨"POST", [("X-Real-IP", "10.0.0.1")], [("csrf_token", ""), ("allow", "Allow")]⟩
        (World.healthy Table.empty 0, [])
      = ⟨none, (ResponseWriter.new.WriteHeader 400).Write "Bad request\n",
          (World.healthy Table.empty 0, [])⟩ :=
  (bad_request_without_backend_call ⟨"n:", Except.ok [], id⟩
      (DynamoDBBackend.toBackend ⟨"knockrd", 3600⟩ "1h0m0s") ResponseWriter.new
      ⟨"POST", [("X-Real-IP", "10.0.0.1")], [("csrf_token", ""), ("allow", "Allow")]⟩
      (World.healthy Table.empty 0) []).2.1 (Or.inr (by decide))

/-- C9: a check request (`authHandler`) with source address `ip` issues exactly one
`Backend.Get(ip)` and nothing else; when `Get` returns `(true, nil)` the response is
"OK" (status 200) and when it returns `(false, nil)` the response is 403 "Forbidden",
both without error; on the DynamoDB backend an address without item in the table,
looked up without I/O failure, is answered 403 without error. -/
theorem auth_check {σ : Type} (b : Backend σ) (w : ResponseWriter) (r : Request) (s : σ)
    (calls : List Call) (d : DynamoDBBackend) (ttl : String) (x : World) :
    (authHandler b.traced w r (s, calls)).st
        = ((b.Get (r.headerGet "X-Real-IP") s).2, calls ++ [Call.get (r.headerGet "X-Real-IP")])
      ∧ ((b.Get (r.headerGet "X-Real-IP") s).1 = (true, none) →
          (authHandler b.traced w r (s, calls)).err = none
            ∧ (authHandler b.traced w r (s, calls)).w = w.Write "OK\n"
            ∧ (w.status = none → (w.Write "OK\n").status = some 200))
      ∧ ((b.Get (r.headerGet "X-Real-IP") s).1 = (false, none) →
          (authHandler b.traced w r (s, calls)).err = none
            ∧ (authHandler b.traced w r (s, calls)).w
                = (w.WriteHeader 403).Write "Forbidden\n"
            ∧ (w.status = none → ((w.WriteHeader 403).Write "Forbidden\n").status = some 403))
      ∧ (x.table (r.headerGet "X-Real-IP") = none → x.nextFault = none →
          (authHandler (d.toBackend ttl).traced w r (x, calls)).err = none
            ∧ (authHandler (d.toBackend ttl).traced w r (x, calls)).w
                = (w.WriteHeader 403).Write "Forbidden\n"
            ∧ (authHandler (d.toBackend ttl).traced w r (x, calls)).st.2
                = calls ++ [Call.get (r.headerGet "X-Real-IP")]
            ∧ (authHandler (d.toBackend ttl).traced w r (x, calls)).st.1.table = x.table) := by
  have key : ∀ {τ : Type} (c : Backend τ) (u : τ),
      (authHandler c.traced w r (u, calls)).st
          = ((c.Get (r.headerGet "X-Real-IP") u).2,
              calls ++ [Call.get (r.headerGet "X-Real-IP")])
        ∧ ((c.Get (r.headerGet "X-Real-IP") u).1 = (true, none) →
            (authHandler c.traced w r (u, calls)).err = none
              ∧ (authHandler c.traced w r (u, calls)).w = w.Write "OK\n")
        ∧ ((c.Get (r.headerGet "X-Real-IP") u).1 = (false, none) →
            (authHandler c.traced w r (u, calls)).err = none
              ∧ (authHandler c.traced w r (u, calls)).w
                  = (w.WriteHeader 403).Write "Forbidden\n") := by
    intro τ c u
    rcases h : c.Get (r.headerGet "X-Real-IP") u with ⟨⟨ok, err⟩, u1⟩
    cases err with
    | some e => simp [authHandler, Backend.traced, h]
    | none =>
      cases ok with
      | false => simp [authHandler, Backend.traced, h]
      | true => simp [authHandler, Backend.traced, h]
  refine ⟨(key b s).1, ?_, ?_, ?_⟩
  · intro h
    exact ⟨((key b s).2.1 h).1, ((key b s).2.1 h).2, write_fresh_status w _⟩
  · intro h
    exact ⟨((key b s).2.2 h).1, ((key b s).2.2 h).2,
      fun hw => write_status _ _ 403 (writeHeader_status w 403 hw)⟩
  · intro hnone hfault
    have hget : ((d.toBackend ttl).Get (r.headerGet "X-Real-IP") x).1 = (false, none) := by
      simp only [DynamoDBBackend.toBackend, hfault]
      exact get_of_missing d _ x.now x.table hnone
    refine ⟨((key (d.toBackend ttl) x).2.2 hget).1, ((key (d.toBackend ttl) x).2.2 hget).2, ?_, ?_⟩
    · rw [(key (d.toBackend ttl) x).1]
    · rw [(key (d.toBackend ttl) x).1]
      simp [DynamoDBBackend.toBackend]

/-- Witness of C9: a check for an address that was never set is forbidden, without error. -/
theorem auth_check_witness :
    (authHandler (DynamoDBBackend.toBackend ⟨"knockrd", 3600⟩ "1h0m0s").traced
        ResponseWriter.new ⟨"GET", [("X-Real-IP", "10.0.0.1")], []⟩
        (World.healthy Table.empty 0, [])).err = none
      ∧ (authHandler (DynamoDBBackend.toBackend ⟨"knockrd", 3600⟩ "1h0m0s").traced
        ResponseWriter.new ⟨"GET", [("X-Real-IP", "10.0.0.1")], []⟩
        (World.healthy Table.empty 0, [])).w.status = some 403 :=
  ⟨((auth_check (DynamoDBBackend.toBackend ⟨"knockrd", 3600⟩ "1h0m0s") ResponseWriter.new
        ⟨"GET", [("X-Real-IP", "10.0.0.1")], []⟩
        (World.healthy Table.empty 0) []
        ⟨"knockrd", 3600⟩ "1h0m0s" (World.healthy Table.empty 0)).2.2.2 rfl rfl).1,
    by
      rw [((auth_check (DynamoDBBackend.toBackend ⟨"knockrd", 3600⟩ "1h0m0s")
        ResponseWriter.new ⟨"GET", [("X-Real-IP", "10.0.0.1")], []⟩
        (World.healthy Table.empty 0) []
        ⟨"knockrd", 3600⟩ "1h0m0s" (World.healthy Table.empty 0)).2.2.2 rfl rfl).2.1]
      rfl⟩

end Knockrd

namespace Knockrd

/-! ## The confirm handler, case by case -/

theorem post_get_error {σ : Type} (b : Backend σ) (w : ResponseWriter) (r : Request) (s : σ)
    (calls : List Call) (ok : Bool) (e : String)
    (hip : r.headerGet "X-Real-IP" ≠ "") (htok : r.FormValue "csrf_token" ≠ "")
    (hget : (b.Get (r.FormValue "csrf_token") s).1 = (ok, some e)) :
    allowPostHandler b.traced w r (s, calls)
      = ⟨some e, w, ((b.Get (r.FormValue "csrf_token") s).2,
          calls ++ [Call.get (r.FormValue "csrf_token")])⟩ := by
  rcases h : b.Get (r.FormValue "csrf_token") s with ⟨⟨ok1, err⟩, s1⟩
  rw [h] at hget
  simp only [Prod.mk.injEq] at hget
  obtain ⟨_, rfl⟩ := hget
  simp [allowPostHandler, Backend.traced, hip, htok, h]

theorem post_absent {σ : Type} (b : Backend σ) (w : ResponseWriter) (r : Request) (s : σ)
    (calls : List Call)
    (hip : r.headerGet "X-Real-IP" ≠ "") (htok : r.FormValue "csrf_token" ≠ "")
    (hget : (b.Get (r.FormValue "csrf_token") s).1 = (false, none)) :
    allowPostHandler b.traced w r (s, calls)
      = ⟨none, (w.WriteHeader 400).Write "Bad request\n",
          ((b.Get (r.FormValue "csrf_token") s).2,
            calls ++ [Call.get (r.FormValue "csrf_token")])⟩ := by
  rcases h : b.Get (r.FormValue "csrf_token") s with ⟨⟨ok1, err⟩, s1⟩
  rw [h] at hget
  simp only [Prod.mk.injEq] at hget
  obtain ⟨rfl, rfl⟩ := hget
  simp [allowPostHandler, Backend.traced, hip, htok, h]

theorem post_delete_error {σ : Type} (b : Backend σ) (w : ResponseWriter) (r : Request)
    (s : σ) (calls : List Call) (e : String)
    (hip : r.headerGet "X-Real-IP" ≠ "") (htok : r.FormValue "csrf_token" ≠ "")
    (hget : (b.Get (r.FormValue "csrf_token") s).1 = (true, none))
    (hdel : (b.Delete (r.FormValue "csrf_token") (b.Get (r.FormValue "csrf_token") s).2).1
      = some e) :
    allowPostHandler b.traced w r (s, calls)
      = ⟨some e, w,
          ((b.Delete (r.FormValue "csrf_token") (b.Get (r.FormValue "csrf_token") s).2).2,
            calls ++ [Call.get (r.FormValue "csrf_token"),
              Call.delete (r.FormValue "csrf_token")])⟩ := by
  rcases h : b.Get (r.FormValue "csrf_token") s with ⟨⟨ok1, err⟩, s1⟩
  rw [h] at hget hdel
  simp only [Prod.mk.injEq] at hget
  obtain ⟨rfl, rfl⟩ := hget
  rcases h2 : b.Delete (r.FormValue "csrf_token") s1 with ⟨derr, s2⟩
  rw [h2] at hdel
  simp only at hdel
  subst hdel
  simp [allowPostHandler, Backend.traced, hip, htok, h, h2]

theorem post_deleted_calls {σ : Type} (b : Backend σ) (w : ResponseWriter) (r : Request)
    (s : σ) (calls : List Call)
    (hip : r.headerGet "X-Real-IP" ≠ "") (htok : r.FormValue "csrf_token" ≠ "")
    (hget : (b.Get (r.FormValue "csrf_token") s).1 = (true, none))
    (hdel : (b.Delete (r.FormValue "csrf_token") (b.Get (r.FormValue "csrf_token") s).2).1
      = none) :
    (allowPostHandler b.traced w r (s, calls)).st.2
      = calls ++ [Call.get (r.FormValue "csrf_token"), Call.delete (r.FormValue "csrf_token")]
          ++ intentCalls r := by
  rcases h : b.Get (r.FormValue "csrf_token") s with ⟨⟨ok1, err⟩, s1⟩
  rw [h] at hget hdel
  simp only [Prod.mk.injEq] at hget
  obtain ⟨rfl, rfl⟩ := hget
  rcases h2 : b.Delete (r.FormValue "csrf_token") s1 with ⟨derr, s2⟩
  rw [h2] at hdel
  simp only at hdel
  subst hdel
  by_cases ha : r.FormValue "allow" = ""
  · by_cases hd : r.FormValue "disallow" = ""
    · simp [allowPostHandler, Backend.traced, hip, htok, h, h2, ha, hd, intentCalls]
    · rcases h3 : b.Delete (r.headerGet "X-Real-IP") s2 with ⟨e3, s3⟩
      cases e3 <;>
        simp [allowPostHandler, Backend.traced, hip, htok, h, h2, ha, hd, h3, intentCalls]
  · rcases h3 : b.Set (r.headerGet "X-Real-IP") s2 with ⟨e3, s3⟩
    cases e3 <;>
      simp [allowPostHandler, Backend.traced, hip, htok, h, h2, ha, h3, intentCalls]

theorem post_no_intent {σ : Type} (b : Backend σ) (w : ResponseWriter) (r : Request)
    (s : σ) (calls : List Call)
    (hip : r.headerGet "X-Real-IP" ≠ "") (htok : r.FormValue "csrf_token" ≠ "")
    (hget : (b.Get (r.FormValue "csrf_token") s).1 = (true, none))
    (ha : r.FormValue "allow" = "") (hd : r.FormValue "disallow" = "") :
    allowPostHandler b.traced w r (s, calls)
      = ⟨(b.Delete (r.FormValue "csrf_token") (b.Get (r.FormValue "csrf_token") s).2).1, w,
          ((b.Delete (r.FormValue "csrf_token") (b.Get (r.FormValue "csrf_token") s).2).2,
            calls ++ [Call.get (r.FormValue "csrf_token"),
              Call.delete (r.FormValue "csrf_token")])⟩ := by
  rcases h : b.Get (r.FormValue "csrf_token") s with ⟨⟨ok1, err⟩, s1⟩
  rw [h] at hget
  simp only [Prod.mk.injEq] at hget
  obtain ⟨rfl, rfl⟩ := hget
  rcases h2 : b.Delete (r.FormValue "csrf_token") s1 with ⟨derr, s2⟩
  cases derr <;> simp [allowPostHandler, Backend.traced, hip, htok, h, h2, ha, hd]

end Knockrd

namespace Knockrd

theorem post_deleted_state {σ : Type} (b : Backend σ) (w : ResponseWriter) (r : Request)
    (s : σ) (calls : List Call)
    (hip : r.headerGet "X-Real-IP" ≠ "") (htok : r.FormValue "csrf_token" ≠ "")
    (hget : (b.Get (r.FormValue "csrf_token") s).1 = (true, none))
    (hdel : (b.Delete (r.FormValue "csrf_token") (b.Get (r.FormValue "csrf_token") s).2).1
      = none) :
    (allowPostHandler b.traced w r (s, calls)).st.1
      = if r.FormValue "allow" ≠ "" then
          (b.Set (r.headerGet "X-Real-IP")
            (b.Delete (r.FormValue "csrf_token") (b.Get (r.FormValue "csrf_token") s).2).2).2
        else if r.FormValue "disallow" ≠ "" then
          (b.Delete (r.headerGet "X-Real-IP")
            (b.Delete (r.FormValue "csrf_token") (b.Get (r.FormValue "csrf_token") s).2).2).2
        else (b.Delete (r.FormValue "csrf_token") (b.Get (r.FormValue "csrf_token") s).2).2 := by
  rcases h : b.Get (r.FormValue "csrf_token") s with ⟨⟨ok1, err⟩, s1⟩
  rw [h] at hget hdel
  simp only [Prod.mk.injEq] at hget
  obtain ⟨rfl, rfl⟩ := hget
  rcases h2 : b.Delete (r.FormValue "csrf_token") s1 with ⟨derr, s2⟩
  rw [h2] at hdel
  simp only at hdel
  subst hdel
  by_cases ha : r.FormValue "allow" = ""
  · by_cases hd : r.FormValue "disallow" = ""
    · simp [allowPostHandler, Backend.traced, hip, htok, h, h2, ha, hd]
    · rcases h3 : b.Delete (r.headerGet "X-Real-IP") s2 with ⟨e3, s3⟩
      cases e3 <;>
        simp [allowPostHandler, Backend.traced, hip, htok, h, h2, ha, hd, h3]
  · rcases h3 : b.Set (r.headerGet "X-Real-IP") s2 with ⟨e3, s3⟩
    cases e3 <;>
      simp [allowPostHandler, Backend.traced, hip, htok, h, h2, ha, h3]

/-! ## The DynamoDB backend as `backend` -/

theorem dynamo_get_absent (d : DynamoDBBackend) (ttl : String) (x : World) (k : String)
    (hk : x.table k = none) (hf : x.nextFault = none) :
    (d.toBackend ttl).Get k x = ((false, none), ⟨x.table, x.now, x.laterFaults⟩) := by
  simp only [DynamoDBBackend.toBackend, hf]
  rw [get_of_missing d k x.now x.table hk]

theorem dynamo_get_live (d : DynamoDBBackend) (ttl : String) (x : World) (k : String) (e : Int)
    (hk : x.table k = some e) (hlive : x.now ≤ e) (hf : x.nextFault = none) :
    (d.toBackend ttl).Get k x = ((true, none), ⟨x.table, x.now, x.laterFaults⟩) := by
  simp only [DynamoDBBackend.toBackend, hf]
  rw [get_of_entry d k x.now e x.table hk]
  simp [hlive]

theorem dynamo_delete_ok (d : DynamoDBBackend) (ttl : String) (x : World) (k : String)
    (hf : x.nextFault = none) :
    (d.toBackend ttl).Delete k x
      = (none, ⟨fun j => if j = k then none else x.table j, x.now, x.laterFaults⟩) := by
  simp [DynamoDBBackend.toBackend, hf, DynamoDBBackend.Delete, Table.delete]

theorem dynamo_delete_keeps_absent (d : DynamoDBBackend) (ttl : String) (x : World)
    (k j : String) (hj : x.table j = none) :
    ((d.toBackend ttl).Delete k x).2.table j = none := by
  cases hf : x.nextFault with
  | none =>
    by_cases hjk : j = k <;>
      simp [DynamoDBBackend.toBackend, hf, DynamoDBBackend.Delete, Table.delete, hj, hjk]
  | some e => simp [DynamoDBBackend.toBackend, hf, DynamoDBBackend.Delete, Table.delete, hj]

theorem dynamo_set_keeps_absent (d : DynamoDBBackend) (ttl : String) (x : World)
    (k j : String) (hj : x.table j = none)
    (h : k ≠ j ∨ ((d.toBackend ttl).Set k x).1 ≠ none) :
    ((d.toBackend ttl).Set k x).2.table j = none := by
  cases hf : x.nextFault with
  | none =>
    rcases h with h | h
    · have hjk : ¬ j = k := fun hh => h hh.symm
      simp [DynamoDBBackend.toBackend, hf, DynamoDBBackend.Set, Table.put, hj, hjk]
    · exact absurd (by simp [DynamoDBBackend.toBackend, hf, DynamoDBBackend.Set, Table.put]) h
  | some e => simp [DynamoDBBackend.toBackend, hf, DynamoDBBackend.Set, Table.put, hj]

end Knockrd

namespace Knockrd

/-- After a confirm that found the token live and deleted it, the token has no item in
the table, unless the address equals the token and `Set(address)` wrote it again. -/
theorem dynamo_confirm_token_absent (d : DynamoDBBackend) (ttl : String) (x : World)
    (w : ResponseWriter) (r : Request) (calls : List Call) (e : Int)
    (hip : r.headerGet "X-Real-IP" ≠ "") (htok : r.FormValue "csrf_token" ≠ "")
    (hk : x.table (r.FormValue "csrf_token") = some e) (hlive : x.now ≤ e)
    (hf0 : x.faults 0 = none) (hf1 : x.faults 1 = none)
    (hsafe : r.headerGet "X-Real-IP" ≠ r.FormValue "csrf_token" ∨ x.faults 2 ≠ none
      ∨ r.FormValue "allow" = "") :
    (allowPostHandler (d.toBackend ttl).traced w r (x, calls)).st.1.table
      (r.FormValue "csrf_token") = none := by
  have hg := dynamo_get_live d ttl x (r.FormValue "csrf_token") e hk hlive hf0
  have hd := dynamo_delete_ok d ttl ⟨x.table, x.now, x.laterFaults⟩ (r.FormValue "csrf_token")
    (by simpa [World.nextFault, World.laterFaults] using hf1)
  have hst := post_deleted_state (d.toBackend ttl) w r x calls hip htok
    (by rw [hg]) (by rw [hg, hd])
  rw [hst, hg, hd]
  simp only
  have habs : (World.mk (fun j => if j = r.FormValue "csrf_token" then none else x.table j)
      x.now (World.laterFaults ⟨x.table, x.now, x.laterFaults⟩)).table
        (r.FormValue "csrf_token") = none := by simp
  split
  · rename_i hallow
    apply dynamo_set_keeps_absent d ttl _ _ _ habs
    rcases hsafe with h | h | h
    · exact Or.inl h
    · right
      cases hf2 : x.faults 2 with
      | none => exact absurd hf2 h
      | some e2 =>
        simp [DynamoDBBackend.toBackend, World.nextFault, World.laterFaults, hf2,
          DynamoDBBackend.Set, Table.put]
    · exact absurd h hallow
  · split
    · exact dynamo_delete_keeps_absent d ttl _ _ _ habs
    · exact habs

/-- C4 as stated fails in its replay clause: when the address and the token are the same
live key `10.0.0.1` and the intent is allow, the first confirm deletes the key as token
and `Set(ip)` writes it again, so the second confirm with the same token finds it
present, is answered "Allowed" with status 200 and issues `Delete` and `Set` once more. -/
theorem confirm_replay_counterexample :
    (allowPostHandler sampleBackend.traced ResponseWriter.new
        (confirmRequest "10.0.0.1" "10.0.0.1" [("allow", "Allow")])
        (World.healthy addressTable 0, [])).st.2
        = [Call.get "10.0.0.1", Call.delete "10.0.0.1", Call.set "10.0.0.1"]
      ∧ (allowPostHandler sampleBackend.traced ResponseWriter.new
        (confirmRequest "10.0.0.1" "10.0.0.1" [("allow", "Allow")])
        (World.healthy addressTable 0, [])).err = none
      ∧ (allowPostHandler sampleBackend.traced ResponseWriter.new
        (confirmRequest "10.0.0.1" "10.0.0.1" [("allow", "Allow")])
        ((allowPostHandler sampleBackend.traced ResponseWriter.new
          (confirmRequest "10.0.0.1" "10.0.0.1" [("allow", "Allow")])
          (World.healthy addressTable 0, [])).st.1, [])).w.status = some 200
      ∧ (allowPostHandler sampleBackend.traced ResponseWriter.new
        (confirmRequest "10.0.0.1" "10.0.0.1" [("allow", "Allow")])
        ((allowPostHandler sampleBackend.traced ResponseWriter.new
          (confirmRequest "10.0.0.1" "10.0.0.1" [("allow", "Allow")])
          (World.healthy addressTable 0, [])).st.1, [])).w.body
          = "Allowed from 10.0.0.1 for 1h0m0s.\n"
      ∧ (allowPostHandler sampleBackend.traced ResponseWriter.new
        (confirmRequest "10.0.0.1" "10.0.0.1" [("allow", "Allow")])
        ((allowPostHandler sampleBackend.traced ResponseWriter.new
          (confirmRequest "10.0.0.1" "10.0.0.1" [("allow", "Allow")])
          (World.healthy addressTable 0, [])).st.1, [])).st.2
          = [Call.get "10.0.0.1", Call.delete "10.0.0.1", Call.set "10.0.0.1"] := by
  decide

/-- C4 (amended): a confirm request (`allowPostHandler`) with a non-empty address and a
non-empty token for which `backend.Get(token)` returns absent is answered 400 "Bad
request" without error, and the only `Backend` call is that `Get`: no `Set` and no
`Delete` on any key. On the DynamoDB backend, a token that an earlier confirm found live
and deleted, for an address other than the token itself or without the allow intent, is
absent, so a second confirm with it is answered this way and leaves the table as it is. -/
theorem confirm_absent_token_no_mutation {σ : Type} (b : Backend σ) (w : ResponseWriter)
    (r : Request) (s : σ) (calls : List Call)
    (hip : r.headerGet "X-Real-IP" ≠ "") (htok : r.FormValue "csrf_token" ≠ "")
    (hget : (b.Get (r.FormValue "csrf_token") s).1 = (false, none)) :
    allowPostHandler b.traced w r (s, calls)
        = ⟨none, (w.WriteHeader 400).Write "Bad request\n",
            ((b.Get (r.FormValue "csrf_token") s).2,
              calls ++ [Call.get (r.FormValue "csrf_token")])⟩
      ∧ (w.status = none → ((w.WriteHeader 400).Write "Bad request\n").status = some 400)
      ∧ (∀ (d : DynamoDBBackend) (ttl : String) (x y : World) (e : Int)
          (w1 : ResponseWriter) (c1 : List Call),
          x.table (r.FormValue "csrf_token") = some e → x.now ≤ e →
          x.faults 0 = none → x.faults 1 = none →
          (r.headerGet "X-Real-IP" ≠ r.FormValue "csrf_token" ∨ r.FormValue "allow" = "") →
          y.table = (allowPostHandler (d.toBackend ttl).traced w1 r (x, c1)).st.1.table →
          y.nextFault = none →
          allowPostHandler (d.toBackend ttl).traced w r (y, calls)
            = ⟨none, (w.WriteHeader 400).Write "Bad request\n",
                (⟨y.table, y.now, y.laterFaults⟩,
                  calls ++ [Call.get (r.FormValue "csrf_token")])⟩) := by
  refine ⟨post_absent b w r s calls hip htok hget, badRequest_status w, ?_⟩
  intro d ttl x y e w1 c1 hk hlive hf0 hf1 hne hy hyf
  have habs : y.table (r.FormValue "csrf_token") = none := by
    rw [hy]
    exact dynamo_confirm_token_absent d ttl x w1 r c1 e hip htok hk hlive hf0 hf1
      (hne.elim Or.inl (fun h => Or.inr (Or.inr h)))
  have hg := dynamo_get_absent d ttl y (r.FormValue "csrf_token") habs hyf
  have := post_absent (d.toBackend ttl) w r y calls hip htok (by rw [hg])
  rw [this, hg]

end Knockrd

namespace Knockrd

/-- Witness of C4 (amended): a confirm with a token that was never issued, and the repeat of a
confirm whose first run consumed the token. -/
theorem confirm_absent_token_no_mutation_witness :
    allowPostHandler sampleBackend.traced ResponseWriter.new
        (confirmRequest "10.0.0.1" "tok" [("allow", "Allow")]) (World.healthy Table.empty 0, [])
      = ⟨none, (ResponseWriter.new.WriteHeader 400).Write "Bad request\n",
          ((sampleBackend.Get "tok" (World.healthy Table.empty 0)).2, [] ++ [Call.get "tok"])⟩
      ∧ allowPostHandler sampleBackend.traced ResponseWriter.new
        (confirmRequest "10.0.0.1" "tok" [("allow", "Allow")])
        ((allowPostHandler sampleBackend.traced ResponseWriter.new
          (confirmRequest "10.0.0.1" "tok" [("allow", "Allow")])
          (World.healthy tokenTable 0, [])).st.1, [])
      = ⟨none, (ResponseWriter.new.WriteHeader 400).Write "Bad request\n",
          (⟨(allowPostHandler sampleBackend.traced ResponseWriter.new
              (confirmRequest "10.0.0.1" "tok" [("allow", "Allow")])
              (World.healthy tokenTable 0, [])).st.1.table, 0, fun _ => none⟩,
            [] ++ [Call.get "tok"])⟩ :=
  ⟨(confirm_absent_token_no_mutation sampleBackend ResponseWriter.new
      (confirmRequest "10.0.0.1" "tok" [("allow", "Allow")]) (World.healthy Table.empty 0) []
      (by decide) (by decide) (by decide)).1,
    (confirm_absent_token_no_mutation sampleBackend ResponseWriter.new
      (confirmRequest "10.0.0.1" "tok" [("allow", "Allow")]) (World.healthy Table.empty 0) []
      (by decide) (by decide) (by decide)).2.2 ⟨"knockrd", 3600⟩ "1h0m0s"
      (World.healthy tokenTable 0) _ 100 ResponseWriter.new []
      (by decide) (by decide) rfl rfl (Or.inl (by decide)) rfl rfl⟩

end Knockrd

namespace Knockrd

/-- C5 as stated fails in its consequence: with the address and the token both the live
key `10.0.0.1` and intent allow, `Delete(token)` succeeds and the `Set(ip)` that follows
it writes the same key again, so the token has an item in the table (expiring at
`0 + 3600`) after the handler returns. -/
theorem confirm_token_rewritten_counterexample :
    addressTable "10.0.0.1" = some 100
      ∧ (sampleBackend.Get "10.0.0.1" (World.healthy addressTable 0)).1 = (true, none)
      ∧ (sampleBackend.Delete "10.0.0.1"
          (sampleBackend.Get "10.0.0.1" (World.healthy addressTable 0)).2).1 = none
      ∧ (allowPostHandler sampleBackend.traced ResponseWriter.new
          (confirmRequest "10.0.0.1" "10.0.0.1" [("allow", "Allow")])
          (World.healthy addressTable 0, [])).st.2
          = [Call.get "10.0.0.1", Call.delete "10.0.0.1", Call.set "10.0.0.1"]
      ∧ (allowPostHandler sampleBackend.traced ResponseWriter.new
          (confirmRequest "10.0.0.1" "10.0.0.1" [("allow", "Allow")])
          (World.healthy addressTable 0, [])).st.1.table "10.0.0.1" = some 3600 := by
  decide

/-- C5 (amended): in a confirm request with an address and a present token,
`Delete(token)` is issued right after the existence check and before any `Set(ip)` or
`Delete(ip)`: when it succeeds the calls are `Get(token)`, `Delete(token)` and then at
most the one call of the intent; when it fails the handler returns its error and makes
no allow/disallow call. On the DynamoDB backend, once `Delete(token)` succeeded the token
has no item in the table after the handler returns when the allow/disallow call that
follows fails, and also when it succeeds unless the intent is allow and the address
equals the token. -/
theorem confirm_delete_before_branch {σ : Type} (b : Backend σ) (w : ResponseWriter)
    (r : Request) (s : σ) (calls : List Call)
    (hip : r.headerGet "X-Real-IP" ≠ "") (htok : r.FormValue "csrf_token" ≠ "")
    (hget : (b.Get (r.FormValue "csrf_token") s).1 = (true, none)) :
    ((b.Delete (r.FormValue "csrf_token") (b.Get (r.FormValue "csrf_token") s).2).1 = none →
        (allowPostHandler b.traced w r (s, calls)).st.2
          = calls ++ [Call.get (r.FormValue "csrf_token"),
              Call.delete (r.FormValue "csrf_token")] ++ intentCalls r)
      ∧ (intentCalls r = [] ∨ intentCalls r = [Call.set (r.headerGet "X-Real-IP")]
          ∨ intentCalls r = [Call.delete (r.headerGet "X-Real-IP")])
      ∧ (∀ e : String,
          (b.Delete (r.FormValue "csrf_token") (b.Get (r.FormValue "csrf_token") s).2).1
            = some e →
          allowPostHandler b.traced w r (s, calls)
            = ⟨some e, w,
                ((b.Delete (r.FormValue "csrf_token")
                    (b.Get (r.FormValue "csrf_token") s).2).2,
                  calls ++ [Call.get (r.FormValue "csrf_token"),
                    Call.delete (r.FormValue "csrf_token")])⟩)
      ∧ (∀ (d : DynamoDBBackend) (ttl : String) (x : World) (e : Int),
          x.table (r.FormValue "csrf_token") = some e → x.now ≤ e →
          x.faults 0 = none → x.faults 1 = none →
          (x.faults 2 ≠ none →
            (allowPostHandler (d.toBackend ttl).traced w r (x, calls)).st.1.table
              (r.FormValue "csrf_token") = none)
          ∧ (r.headerGet "X-Real-IP" ≠ r.FormValue "csrf_token" ∨ r.FormValue "allow" = "" →
            (allowPostHandler (d.toBackend ttl).traced w r (x, calls)).st.1.table
              (r.FormValue "csrf_token") = none)) := by
  refine ⟨post_deleted_calls b w r s calls hip htok hget, ?_,
    fun e he => post_delete_error b w r s calls e hip htok hget he, ?_⟩
  · unfold intentCalls
    by_cases ha : r.FormValue "allow" = ""
    · by_cases hd : r.FormValue "disallow" = "" <;> simp [ha, hd]
    · simp [ha]
  · intro d ttl x e hk hlive hf0 hf1
    exact ⟨fun h2 => dynamo_confirm_token_absent d ttl x w r calls e hip htok hk hlive hf0 hf1
        (Or.inr (Or.inl h2)),
      fun hne => dynamo_confirm_token_absent d ttl x w r calls e hip htok hk hlive hf0 hf1
        (hne.elim Or.inl (fun h => Or.inr (Or.inr h)))⟩

/-- Witness of C5 (amended): an allow confirm whose `Set(ip)` fails after the token was deleted. -/
theorem confirm_delete_before_branch_witness :
    (allowPostHandler sampleBackend.traced ResponseWriter.new
        (confirmRequest "10.0.0.1" "tok" [("allow", "Allow")])
        (⟨tokenTable, 0, fun i => if i = 2 then some "timeout" else none⟩, [])).st.2
        = [] ++ [Call.get "tok", Call.delete "tok"]
            ++ intentCalls (confirmRequest "10.0.0.1" "tok" [("allow", "Allow")])
      ∧ (allowPostHandler sampleBackend.traced ResponseWriter.new
        (confirmRequest "10.0.0.1" "tok" [("allow", "Allow")])
        (⟨tokenTable, 0, fun i => if i = 2 then some "timeout" else none⟩, [])).st.1.table
          "tok" = none :=
  ⟨(confirm_delete_before_branch sampleBackend ResponseWriter.new
      (confirmRequest "10.0.0.1" "tok" [("allow", "Allow")])
      ⟨tokenTable, 0, fun i => if i = 2 then some "timeout" else none⟩ []
      (by decide) (by decide) (by decide)).1 (by decide),
    ((confirm_delete_before_branch sampleBackend ResponseWriter.new
      (confirmRequest "10.0.0.1" "tok" [("allow", "Allow")])
      ⟨tokenTable, 0, fun i => if i = 2 then some "timeout" else none⟩ []
      (by decide) (by decide) (by decide)).2.2.2 ⟨"knockrd", 3600⟩ "1h0m0s"
      ⟨tokenTable, 0, fun i => if i = 2 then some "timeout" else none⟩ 100
      (by decide) (by decide) rfl rfl).1 (by decide)⟩

/-- C7 as stated fails: a confirm with address `10.0.0.1`, the live token `tok` and no
intent field deletes the token (a `Delete` is issued and the item is gone) and the
response is left unwritten, which the client receives as 200, not as a client error. -/
theorem confirm_missing_intent_counterexample :
    tokenTable "tok" = some 100
      ∧ (confirmRequest "10.0.0.1" "tok" []).FormValue "allow" = ""
      ∧ (confirmRequest "10.0.0.1" "tok" []).FormValue "disallow" = ""
      ∧ (allowPostHandler sampleBackend.traced ResponseWriter.new
          (confirmRequest "10.0.0.1" "tok" []) (World.healthy tokenTable 0, [])).st.2
          = [Call.get "tok", Call.delete "tok"]
      ∧ (allowPostHandler sampleBackend.traced ResponseWriter.new
          (confirmRequest "10.0.0.1" "tok" []) (World.healthy tokenTable 0, [])).st.1.table
          "tok" = none
      ∧ (allowPostHandler sampleBackend.traced ResponseWriter.new
          (confirmRequest "10.0.0.1" "tok" []) (World.healthy tokenTable 0, [])).w.status
          = none
      ∧ (wrap (allowHandler sampleEnv sampleBackend.traced) ResponseWriter.new
          (confirmRequest "10.0.0.1" "tok" [])
          (World.healthy tokenTable 0, [])).1.sentStatus = 200 := by
  decide

/-- C7 (amended): a confirm request whose address and token are present and valid but
whose intent is missing consumes the token and does nothing else on the `Backend`: the
calls are `Get(token)` then `Delete(token)`, with no `Set` or `Delete` for the address,
and the handler returns what `Delete(token)` returned. -/
theorem confirm_missing_intent_consumes_token {σ : Type} (b : Backend σ)
    (w : ResponseWriter) (r : Request) (s : σ) (calls : List Call)
    (hip : r.headerGet "X-Real-IP" ≠ "") (htok : r.FormValue "csrf_token" ≠ "")
    (hget : (b.Get (r.FormValue "csrf_token") s).1 = (true, none))
    (ha : r.FormValue "allow" = "") (hd : r.FormValue "disallow" = "") :
    (allowPostHandler b.traced w r (s, calls)).st
        = ((b.Delete (r.FormValue "csrf_token") (b.Get (r.FormValue "csrf_token") s).2).2,
            calls ++ [Call.get (r.FormValue "csrf_token"),
              Call.delete (r.FormValue "csrf_token")])
      ∧ (allowPostHandler b.traced w r (s, calls)).err
        = (b.Delete (r.FormValue "csrf_token") (b.Get (r.FormValue "csrf_token") s).2).1 := by
  rw [post_no_intent b w r s calls hip htok hget ha hd]
  exact ⟨rfl, rfl⟩

/-- Witness of C7 (amended): the confirm without intent on a table holding the token. -/
theorem confirm_missing_intent_consumes_token_witness :
    (allowPostHandler sampleBackend.traced ResponseWriter.new
        (confirmRequest "10.0.0.1" "tok" []) (World.healthy tokenTable 0, [])).st.2
      = [] ++ [Call.get "tok", Call.delete "tok"] :=
  congrArg Prod.snd (confirm_missing_intent_consumes_token sampleBackend ResponseWriter.new
    (confirmRequest "10.0.0.1" "tok" []) (World.healthy tokenTable 0) []
    (by decide) (by decide) (by decide) (by decide) (by decide)).1

end Knockrd

namespace Knockrd

/-- C6 fails on the issue and confirm routes: `allowHandler` never returns the error of
its sub-handler, so `wrap` answers no 500. At a confirm whose `Get(token)` fails with a
deadline error, and at an issue whose `Set(token)` fails so, the sub-handler returns the
error after that one call, yet the response is left unwritten (received as 200 with an
empty body); the check route answers the same failure with 500 "Server Error". -/
theorem allow_route_drops_backend_error :
    (∀ (σ : Type) (env : Env) (b : Backend σ) (w : ResponseWriter) (r : Request) (s : σ),
        (allowHandler env b w r s).err = none)
      ∧ (allowPostHandler sampleBackend.traced ResponseWriter.new
          (confirmRequest "10.0.0.1" "tok" [("allow", "Allow")])
          (⟨tokenTable, 0, fun _ => some "context deadline exceeded"⟩, [])).err
          = some "context deadline exceeded"
      ∧ (wrap (allowHandler sampleEnv sampleBackend.traced) ResponseWriter.new
          (confirmRequest "10.0.0.1" "tok" [("allow", "Allow")])
          (⟨tokenTable, 0, fun _ => some "context deadline exceeded"⟩, [])).1.status = none
      ∧ (wrap (allowHandler sampleEnv sampleBackend.traced) ResponseWriter.new
          (confirmRequest "10.0.0.1" "tok" [("allow", "Allow")])
          (⟨tokenTable, 0, fun _ => some "context deadline exceeded"⟩, [])).1.sentStatus = 200
      ∧ (wrap (allowHandler sampleEnv sampleBackend.traced) ResponseWriter.new
          (confirmRequest "10.0.0.1" "tok" [("allow", "Allow")])
          (⟨tokenTable, 0, fun _ => some "context deadline exceeded"⟩, [])).1.body = ""
      ∧ (wrap (allowHandler sampleEnv sampleBackend.traced) ResponseWriter.new
          (confirmRequest "10.0.0.1" "tok" [("allow", "Allow")])
          (⟨tokenTable, 0, fun _ => some "context deadline exceeded"⟩, [])).2.2
          = [Call.get "tok"]
      ∧ (allowGetHandler sampleEnv sampleBackend.traced ResponseWriter.new
          (issueRequest "10.0.0.1")
          (⟨Table.empty, 0, fun _ => some "context deadline exceeded"⟩, [])).err
          = some "context deadline exceeded"
      ∧ (wrap (allowHandler sampleEnv sampleBackend.traced) ResponseWriter.new
          (issueRequest "10.0.0.1")
          (⟨Table.empty, 0, fun _ => some "context deadline exceeded"⟩, [])).1.sentStatus = 200
      ∧ (wrap (allowHandler sampleEnv sampleBackend.traced) ResponseWriter.new
          (issueRequest "10.0.0.1")
          (⟨Table.empty, 0, fun _ => some "context deadline exceeded"⟩, [])).1.body = ""
      ∧ (wrap (authHandler sampleBackend.traced) ResponseWriter.new
          (issueRequest "10.0.0.1")
          (⟨Table.empty, 0, fun _ => some "context deadline exceeded"⟩, [])).1.status
          = some 500
      ∧ (wrap (authHandler sampleBackend.traced) ResponseWriter.new
          (issueRequest "10.0.0.1")
          (⟨Table.empty, 0, fun _ => some "context deadline exceeded"⟩, [])).1.body
          = "Server Error\n" := by
  refine ⟨?_, by decide, by decide, by decide, by decide, by decide, by decide, by decide,
    by decide, by decide, by decide⟩
  intro σ env b w r s
  unfold allowHandler
  split
  · rfl
  · split <;> rfl

/-- C10 fails for a cache TTL below the TTL: with `ttl` one hour and `cache_ttl` ten
seconds (the defaults), `Setup` leaves `CacheTTL` at one hour and hands one hour to
`NewCachedBackend`, where the minimum of the two is ten seconds. -/
theorem setup_overwrites_cache_ttl :
    (0 : Int) < 10000000000
      ∧ (Config.Setup ⟨3600000000000, 10000000000⟩ none none none).conf.CacheTTL
          = 3600000000000
      ∧ (Config.Setup ⟨3600000000000, 10000000000⟩ none none none).cachedBackendTTL
          = some 3600000000000
      ∧ min (10000000000 : Int) 3600000000000 = 10000000000
      ∧ (Config.Setup ⟨3600000000000, 10000000000⟩ none none none).conf.CacheTTL
          ≠ min (10000000000 : Int) 3600000000000 := by
  decide

end Knockrd
